import Mathlib

/-!  Verification of the Peer Negotiation Adapter
     (src/libs/core/adapter/src/lib/peer.adapter.ts).

The adapter wraps one transport-engine handle (an `RTCPeerConnection`).
The engine itself is an external collaborator: its behaviour is modelled
from the spec's boundary description (§6 consumed capabilities and the
§4 negotiation state machine).  The adapter's own methods are embedded
directly from the TypeScript source.  -/

namespace SpeekVideo

/-- An inbound media track; opaque to the adapter, only identity matters. -/
abbrev Track := String

/-- A locally gathered ICE candidate; opaque value data. -/
abbrev Candidate := String

/-- A media-stream grouping, the container handed to the inbound-media feed.
In the source a `MediaStream()` starts empty and `addTrack` appends. -/
structure MediaStream where
  tracks : List Track
deriving DecidableEq, Repr

/-- The type tag of an SDP session description. -/
inductive SdpType
  | offer
  | answer
  | pranswer
  | rollback
deriving DecidableEq, Repr

/-- A session description: a type tag plus opaque SDP text. -/
structure Sdp where
  ty : SdpType
  sdp : String
deriving DecidableEq, Repr

/-- An opaque data-channel handle produced by the transport engine. -/
structure DataChannel where
  label : String
deriving DecidableEq, Repr

/-- Errors surfaced by the transport engine: a state-machine conflict
(`invalidState`) or a missing/ill-typed required argument (`typeError`). -/
inductive Err
  | invalidState
  | typeError
deriving DecidableEq, Repr

/-- The negotiation sub-state of the transport engine (spec §4 state machine). -/
inductive SigState
  | stable
  | haveLocalOffer
  | haveRemoteOffer
  | closed
deriving DecidableEq, Repr

/-- Modelled from the spec: the observable state of one transport-engine
handle (the `RTCPeerConnection`, which is not part of this repository):
closed flag, negotiation sub-state, current local/remote descriptions,
remote candidates received so far, and opened data-channel labels. -/
structure EngineState where
  closed : Bool
  signaling : SigState
  localDesc : Option Sdp
  remoteDesc : Option Sdp
  candidates : List Candidate
  channels : List String
deriving DecidableEq, Repr

/-- A fresh, never-negotiated engine handle (state right after construction). -/
def EngineState.init : EngineState :=
  { closed := false, signaling := .stable, localDesc := none,
    remoteDesc := none, candidates := [], channels := [] }

/-- SDP text the modelled engine produces for a local offer (opaque blob). -/
def offerSdpText : String := "v=0 speek-local-offer"

/-- SDP text the modelled engine produces for a local answer (opaque blob). -/
def answerSdpText : String := "v=0 speek-local-answer"

/-- Modelled from the spec: `createLocalOffer` of the transport engine.
Fails on a closed handle, otherwise yields an offer-typed description
with non-empty content.  Does not itself change the engine state. -/
def engineCreateOffer (s : EngineState) : Except Err Sdp :=
  if s.closed then .error .invalidState
  else .ok ⟨.offer, offerSdpText⟩

/-- Modelled from the spec: `createLocalAnswer` of the transport engine.
Valid only while a remote offer is the current remote description. -/
def engineCreateAnswer (s : EngineState) : Except Err Sdp :=
  if s.closed then .error .invalidState
  else if s.signaling = .haveRemoteOffer then .ok ⟨.answer, answerSdpText⟩
  else .error .invalidState

/-- Modelled from the spec: `applyLocalDescription`.  The engine stores the
description after its own adjustment of the SDP text (fingerprinting /
ICE-ufrag assignment, abstracted as `adjust`), and moves the negotiation
sub-state per the §4 state machine. -/
def applyLocalDescription (adjust : String → String) (d : Sdp)
    (s : EngineState) : Except Err EngineState :=
  if s.closed then .error .invalidState
  else if d.ty = .offer ∧ (s.signaling = .stable ∨ s.signaling = .haveLocalOffer) then
    .ok { s with localDesc := some ⟨d.ty, adjust d.sdp⟩, signaling := .haveLocalOffer }
  else if d.ty = .answer ∧ s.signaling = .haveRemoteOffer then
    .ok { s with localDesc := some ⟨d.ty, adjust d.sdp⟩, signaling := .stable }
  else .error .invalidState

/-- Modelled from the spec: `applyRemoteDescription`.  Stores the remote
description verbatim and moves the sub-state per the §4 state machine. -/
def applyRemoteDescription (d : Sdp) (s : EngineState) : Except Err EngineState :=
  if s.closed then .error .invalidState
  else if d.ty = .offer ∧ (s.signaling = .stable ∨ s.signaling = .haveRemoteOffer) then
    .ok { s with remoteDesc := some d, signaling := .haveRemoteOffer }
  else if d.ty = .answer ∧ s.signaling = .haveLocalOffer then
    .ok { s with remoteDesc := some d, signaling := .stable }
  else .error .invalidState

/-- Modelled from the spec: `applyRemoteDescription` reached through the web
platform's argument conversion.  The description argument is required (its
type member is mandatory), so invoking it without one fails with a type
error before the engine state is consulted. -/
def applyRemoteDescriptionOpt (o : Option Sdp) (s : EngineState) :
    Except Err EngineState :=
  match o with
  | none => .error .typeError
  | some d => applyRemoteDescription d s

/-- Modelled from the spec: `addRemoteCandidate`.  Rejected on a closed
handle or before any remote description is set; otherwise the candidate
joins the active ICE session (trickle semantics, accepted any time pre-close). -/
def addRemoteCandidate (c : Candidate) (s : EngineState) :
    Except Err EngineState :=
  if s.closed then .error .invalidState
  else match s.remoteDesc with
    | none => .error .invalidState
    | some _ => .ok { s with candidates := s.candidates ++ [c] }

/-- Modelled from the spec: `openDataChannel`.  Refused (thrown) on a closed
handle; otherwise returns a fresh handle for the label. -/
def openDataChannel (label : String) (s : EngineState) :
    Except Err (DataChannel × EngineState) :=
  if s.closed then .error .invalidState
  else .ok (⟨label⟩, { s with channels := s.channels ++ [label] })

/-- Modelled from the spec: `teardown`.  Marks the handle closed and the
negotiation sub-state terminal.  Never fails. -/
def teardown (s : EngineState) : EngineState :=
  { s with closed := true, signaling := .closed }

/-- Modelled from the spec: a torn-down engine emits no further events on
any of the three feeds; event emission stops exactly at close. -/
def engineEmitsEvents (s : EngineState) : Bool :=
  !s.closed

/-- Commands the adapter issues to the transport engine, recorded in order
so that sequencing claims can be stated. -/
inductive Cmd
  | createLocalOffer
  | createLocalAnswer
  | applyLocal (d : Sdp)
  | applyRemote (d : Option Sdp)
deriving DecidableEq, Repr

/-- The adapter-owned state: the exclusively owned engine handle plus the
`inboundStream` closure variable (the pending synthetic inbound stream). -/
structure AdapterState where
  connection : EngineState
  pendingInboundStream : Option MediaStream
deriving DecidableEq, Repr

/-- A freshly constructed adapter over a fresh engine handle. -/
def AdapterState.init : AdapterState :=
  { connection := EngineState.init, pendingInboundStream := none }

/-- True when an engine result is a failure (a rejection or a thrown error). -/
def isErr {α : Type} : Except Err α → Bool
  | .error _ => true
  | .ok _ => false

namespace PeerAdapter

/-- Embeds `PeerAdapter.createOffer` (peer.adapter.ts lines 74-82): request
an offer from the engine, apply it as the local description, then resolve
with `this.connection.localDescription` as it stands after application;
any step's failure rejects.  The issued engine commands are recorded. -/
def createOffer (adjust : String → String) (a : AdapterState) :
    Except Err (Option Sdp) × AdapterState × List Cmd :=
  match engineCreateOffer a.connection with
  | .error e => (.error e, a, [.createLocalOffer])
  | .ok sdp =>
    match applyLocalDescription adjust sdp a.connection with
    | .error e => (.error e, a, [.createLocalOffer, .applyLocal sdp])
    | .ok c1 =>
      (.ok c1.localDesc, { a with connection := c1 },
        [.createLocalOffer, .applyLocal sdp])

/-- Embeds `PeerAdapter.createAnswer` (peer.adapter.ts lines 97-106): apply
the supplied description as the remote description, request an answer,
apply it as the local description, resolve with the resulting
`localDescription`; any step's failure rejects. -/
def createAnswer (adjust : String → String) (options : Option Sdp)
    (a : AdapterState) : Except Err (Option Sdp) × AdapterState × List Cmd :=
  match applyRemoteDescriptionOpt options a.connection with
  | .error e => (.error e, a, [.applyRemote options])
  | .ok c1 =>
    match engineCreateAnswer c1 with
    | .error e => (.error e, { a with connection := c1 },
        [.applyRemote options, .createLocalAnswer])
    | .ok sdp =>
      match applyLocalDescription adjust sdp c1 with
      | .error e => (.error e, { a with connection := c1 },
          [.applyRemote options, .createLocalAnswer, .applyLocal sdp])
      | .ok c2 =>
        (.ok c2.localDesc, { a with connection := c2 },
          [.applyRemote options, .createLocalAnswer, .applyLocal sdp])

/-- Embeds `PeerAdapter.setRemote` (peer.adapter.ts lines 121-125): wrap the
argument in a session description (a value copy; absent argument fails the
required-member conversion) and hand it to the engine. -/
def setRemote (description : Option Sdp) (a : AdapterState) :
    Except Err Unit × AdapterState :=
  match description with
  | none => (.error .typeError, a)
  | some d =>
    match applyRemoteDescription d a.connection with
    | .error e => (.error e, a)
    | .ok c1 => (.ok (), { a with connection := c1 })

/-- Embeds `PeerAdapter.addCandidate` (peer.adapter.ts lines 136-138):
wrap the candidate (value copy) and hand it to the engine. -/
def addCandidate (c : Candidate) (a : AdapterState) :
    Except Err Unit × AdapterState :=
  match addRemoteCandidate c a.connection with
  | .error e => (.error e, a)
  | .ok c1 => (.ok (), { a with connection := c1 })

/-- Embeds `PeerAdapter.createDataChannel` (peer.adapter.ts lines 149-151):
a direct, synchronous pass-through to the engine; the engine's handle or
thrown refusal is returned verbatim and nothing else on the adapter moves. -/
def createDataChannel (label : String) (a : AdapterState) :
    Except Err DataChannel × AdapterState :=
  match openDataChannel label a.connection with
  | .error e => (.error e, a)
  | .ok (ch, c1) => (.ok ch, { a with connection := c1 })

/-- Embeds `PeerAdapter.close` (peer.adapter.ts lines 172-174): delegates to
`this.connection.close()` and touches nothing else — in particular the
`inboundStream` closure variable is left as it is. -/
def close (a : AdapterState) : AdapterState :=
  { a with connection := teardown a.connection }

end PeerAdapter

/-- A `track` event delivered by the transport engine: the new track plus
the engine-reported stream groupings it belongs to (possibly none). -/
structure TrackEvent where
  track : Track
  streams : List MediaStream
deriving DecidableEq, Repr

/-- Embeds the `track` listener of the inbound-media feed (peer.adapter.ts
lines 45-58) as one step over the `inboundStream` closure variable: a
grouped track emits its first reported grouping; an ungrouped track either
creates the synthetic grouping holding that track and emits it (when none
exists yet) or does nothing at all.  Returns the new closure value and the
emissions this event caused, in order. -/
def onTrackHandle (pending : Option MediaStream) (ev : TrackEvent) :
    Option MediaStream × List MediaStream :=
  match ev.streams with
  | s :: _ => (pending, [s])
  | [] =>
    match pending with
    | some _ => (pending, [])
    | none =>
      let m : MediaStream := ⟨[ev.track]⟩
      (some m, [m])

/-- Folds the `track` listener over a sequence of track events, collecting
every emission of the inbound-media feed in order. -/
def onTrackRun (pending : Option MediaStream) :
    List TrackEvent → Option MediaStream × List MediaStream
  | [] => (pending, [])
  | ev :: evs =>
    let st1 := onTrackHandle pending ev
    let st2 := onTrackRun st1.1 evs
    (st2.1, st1.2 ++ st2.2)

/-- An `icecandidate` event delivered by the transport engine, carrying one
locally gathered candidate. -/
structure CandidateEvent where
  candidate : Candidate
deriving DecidableEq, Repr

/-- What a subscriber has seen from a feed: the emitted items in order, and
whether an explicit completion (end) signal was delivered. -/
structure FeedOutput (α : Type) where
  emitted : List α
  completed : Bool
deriving Repr

/-- Embeds the candidate feed (peer.adapter.ts lines 39-43): the listener
calls `subscriber.next(candidate)` once per event and nothing else — in
particular `subscriber.complete()` is never invoked, so the feed carries
no explicit end signal. -/
def onCandidateFeed (evs : List CandidateEvent) : FeedOutput Candidate :=
  { emitted := evs.map CandidateEvent.candidate, completed := false }

/-- Modelled from the spec: the engine raises `candidateGathered` once per
locally gathered candidate while the handle is open, and raises none after
close (emission ends naturally when gathering completes or the connection
closes). -/
def engineCandidateEvents (s : EngineState) (gathered : List Candidate) :
    List CandidateEvent :=
  if s.closed then [] else gathered.map CandidateEvent.mk

/-- A datum pushed on the state-change feed: either the connection object
itself or a bare negotiation sub-state value (the two readings at issue). -/
inductive StateFeedItem
  | connection (c : EngineState)
  | sigState (st : SigState)
deriving DecidableEq, Repr

/-- The negotiation sub-state recoverable from a state-change emission. -/
def StateFeedItem.signalingOf : StateFeedItem → SigState
  | .connection c => c.signaling
  | .sigState st => st

/-- Embeds the `signalingstatechange` listener of the state-change feed
(peer.adapter.ts lines 33-37): `subscriber.next(target)` pushes the event's
target — the connection object itself. -/
def onChangeEmission (target : EngineState) : StateFeedItem :=
  .connection target

/-- Modelled from the spec: the claimed reading of the state-change feed,
which would push the current signaling state value itself; kept for
comparison with the source's `onChangeEmission`. -/
def onChangeEmissionClaim (target : EngineState) : StateFeedItem :=
  .sigState target.signaling

/-- Modelled from the spec: the engine raises `signalingstatechange`, with
the connection as event target, exactly when a command moved the
negotiation sub-state. -/
def signalingChangeEvents (sOld sNew : EngineState) : List EngineState :=
  if sOld.signaling = sNew.signaling then [] else [sNew]

/-- Claim C1: for an adapter whose connection is not closed (and whose engine
accepts an offer, i.e. a stable negotiation state), `createOffer` requests a
local offer from the engine and then applies it as the local description, in
that order, and resolves with the connection's local description as it stands
after application — the engine-adjusted description, not the raw offer the
engine returned. -/
theorem createOffer_resolves_applied_local_description
    (adjust : String → String) (a : AdapterState)
    (hc : a.connection.closed = false) (hs : a.connection.signaling = .stable) :
    PeerAdapter.createOffer adjust a =
      (.ok (some ⟨.offer, adjust offerSdpText⟩),
       { a with connection :=
          { a.connection with
              localDesc := some ⟨.offer, adjust offerSdpText⟩,
              signaling := .haveLocalOffer } },
       [.createLocalOffer, .applyLocal ⟨.offer, offerSdpText⟩]) ∧
    (PeerAdapter.createOffer adjust a).1 =
      .ok (PeerAdapter.createOffer adjust a).2.1.connection.localDesc := by
  simp [PeerAdapter.createOffer, engineCreateOffer, applyLocalDescription, hc, hs]

/-- Witness for C1: a fresh adapter and a concrete engine-side adjustment;
the resolved description is the adjusted one, not the raw offer. -/
theorem createOffer_resolves_applied_local_description_witness :
    (PeerAdapter.createOffer (fun t => t ++ " a=fp") AdapterState.init).1 =
      .ok (some ⟨.offer, offerSdpText ++ " a=fp"⟩) := by
  have h := createOffer_resolves_applied_local_description
      (fun t => t ++ " a=fp") AdapterState.init rfl rfl
  rw [h.1]

/-- Claim C2: for an adapter whose connection is not closed (stable state) and
a supplied remote offer, `createAnswer` issues, in order: apply the supplied
description as remote description, request an answer, apply the answer as
local description; and it resolves with the connection's local description
after application. -/
theorem createAnswer_sequences_and_resolves
    (adjust : String → String) (d : Sdp) (a : AdapterState)
    (hc : a.connection.closed = false) (hs : a.connection.signaling = .stable)
    (hd : d.ty = .offer) :
    (PeerAdapter.createAnswer adjust (some d) a).2.2 =
      [.applyRemote (some d), .createLocalAnswer,
       .applyLocal ⟨.answer, answerSdpText⟩] ∧
    (PeerAdapter.createAnswer adjust (some d) a).1 =
      .ok (PeerAdapter.createAnswer adjust (some d) a).2.1.connection.localDesc ∧
    (PeerAdapter.createAnswer adjust (some d) a).2.1.connection.localDesc =
      some ⟨.answer, adjust answerSdpText⟩ ∧
    (PeerAdapter.createAnswer adjust (some d) a).2.1.connection.remoteDesc =
      some d := by
  simp [PeerAdapter.createAnswer, applyRemoteDescriptionOpt,
        applyRemoteDescription, engineCreateAnswer, applyLocalDescription,
        hc, hs, hd]

/-- Witness for C2: a fresh adapter, a concrete remote offer and a concrete
adjustment; the command trace and the resolved answer are as stated. -/
theorem createAnswer_sequences_and_resolves_witness :
    (PeerAdapter.createAnswer (fun t => t ++ " a=uf")
        (some ⟨.offer, "v=0 remote-offer"⟩) AdapterState.init).1 =
      .ok (some ⟨.answer, answerSdpText ++ " a=uf"⟩) := by
  have h := createAnswer_sequences_and_resolves (fun t => t ++ " a=uf")
      ⟨.offer, "v=0 remote-offer"⟩ AdapterState.init rfl rfl rfl
  rw [h.2.1, h.2.2.1]

/-- Claim C4: after `close()` the closed state is terminal and no command
succeeds — every subsequent `createOffer`, `createAnswer`, `setRemote`,
`addCandidate` or `createDataChannel` call fails deterministically, for any
arguments. -/
theorem no_command_succeeds_after_close
    (adjust : String → String) (a : AdapterState) (opt : Option Sdp)
    (c : Candidate) (lbl : String) :
    isErr (PeerAdapter.createOffer adjust (PeerAdapter.close a)).1 = true ∧
    isErr (PeerAdapter.createAnswer adjust opt (PeerAdapter.close a)).1 = true ∧
    isErr (PeerAdapter.setRemote opt (PeerAdapter.close a)).1 = true ∧
    isErr (PeerAdapter.addCandidate c (PeerAdapter.close a)).1 = true ∧
    isErr (PeerAdapter.createDataChannel lbl (PeerAdapter.close a)).1 = true := by
  cases opt <;>
  simp [PeerAdapter.close, PeerAdapter.createOffer, PeerAdapter.createAnswer,
        PeerAdapter.setRemote, PeerAdapter.addCandidate,
        PeerAdapter.createDataChannel, teardown, engineCreateOffer,
        applyRemoteDescriptionOpt, applyRemoteDescription, addRemoteCandidate,
        openDataChannel, isErr]

/-- Claim C6: `close()` is idempotent — a second (or any further) call
produces exactly the same adapter state as the first, with no additional
teardown effect; the operation has no error channel at all. -/
theorem close_idempotent (a : AdapterState) :
    PeerAdapter.close (PeerAdapter.close a) = PeerAdapter.close a := rfl

/-- Helper: once the synthetic inbound stream exists, further ungrouped
track events neither change it nor cause any emission. -/
theorem onTrackRun_some_ungrouped (m : MediaStream) (evs : List TrackEvent)
    (h : ∀ e ∈ evs, e.streams = []) :
    onTrackRun (some m) evs = (some m, []) := by
  induction evs with
  | nil => rfl
  | cons ev evs ih =>
    have he : ev.streams = [] := h ev (List.mem_cons_self ev evs)
    have ihh := ih fun e hm => h e (List.mem_cons_of_mem ev hm)
    simp [onTrackRun, onTrackHandle, he, ihh]

/-- Counterexample to claim C3: three ungrouped tracks yield exactly one
emission, but the emitted grouping holds only the first track — the listener
never adds later ungrouped tracks to the synthetic grouping, so the grouping
does not contain all three tracks as claimed. -/
theorem onTrack_all_tracks_counterexample :
    (onTrackRun none [⟨"t1", []⟩, ⟨"t2", []⟩, ⟨"t3", []⟩]).2 = [⟨["t1"]⟩] ∧
    ¬ "t2" ∈ MediaStream.tracks ⟨["t1"]⟩ ∧
    ¬ "t3" ∈ MediaStream.tracks ⟨["t1"]⟩ := by
  decide

/-- Claim C3 (amended): over any sequence of ungrouped inbound tracks, the
feed lazily constructs exactly one synthetic grouping per connection
lifetime and emits it exactly once, on first creation; the grouping contains
only the first ungrouped track, and every later ungrouped track is ignored —
neither added to the grouping nor re-emitted. -/
theorem onTrack_single_emission_first_track_only
    (t : Track) (evs : List TrackEvent)
    (h : ∀ e ∈ evs, e.streams = []) :
    onTrackRun none (⟨t, []⟩ :: evs) = (some ⟨[t]⟩, [⟨[t]⟩]) := by
  have hrest := onTrackRun_some_ungrouped ⟨[t]⟩ evs h
  simp [onTrackRun, onTrackHandle, hrest]

/-- Witness for C3 (amended) at three concrete ungrouped tracks. -/
theorem onTrack_single_emission_first_track_only_witness :
    onTrackRun none [⟨"t1", []⟩, ⟨"t2", []⟩, ⟨"t3", []⟩] =
      (some ⟨["t1"]⟩, [⟨["t1"]⟩]) :=
  onTrack_single_emission_first_track_only "t1" [⟨"t2", []⟩, ⟨"t3", []⟩]
    (by decide)

/-- Counterexample to claim C5: `close()` does not clear the pending
synthetic inbound stream — after close it is still the very same stream,
not freed. -/
theorem close_retains_pendingInboundStream_counterexample :
    (PeerAdapter.close ⟨EngineState.init, some ⟨["t1"]⟩⟩).pendingInboundStream
      = some ⟨["t1"]⟩ ∧
    (PeerAdapter.close ⟨EngineState.init, some ⟨["t1"]⟩⟩).pendingInboundStream
      ≠ none := by
  decide

/-- Claim C5 (amended): `close()` terminates the transport handle (engine
teardown: closed flag set, terminal signaling state, and no further engine
events on any feed), while the pending synthetic inbound stream is retained
unchanged — it is not cleared at close. -/
theorem close_teardown_retains_pending (a : AdapterState) :
    (PeerAdapter.close a).connection = teardown a.connection ∧
    (PeerAdapter.close a).connection.closed = true ∧
    engineEmitsEvents (PeerAdapter.close a).connection = false ∧
    (PeerAdapter.close a).pendingInboundStream = a.pendingInboundStream :=
  ⟨rfl, rfl, rfl, rfl⟩

/-- Counterexample to claim C7: the datum the state-change feed pushes is
the connection object, not the negotiation sub-state value the claim
describes — the two readings differ already on a fresh connection. -/
theorem onChange_emits_state_value_counterexample :
    onChangeEmission EngineState.init ≠ onChangeEmissionClaim EngineState.init := by
  decide

/-- Claim C7 (amended): whenever the engine's negotiation sub-state changes,
the state-change feed emits exactly one datum — the connection object itself
rather than the bare state value — and the current signaling state is what
that datum carries. -/
theorem onChange_emits_connection_on_state_change
    (sOld sNew : EngineState) (h : sOld.signaling ≠ sNew.signaling) :
    (signalingChangeEvents sOld sNew).map onChangeEmission =
      [.connection sNew] ∧
    ((signalingChangeEvents sOld sNew).map onChangeEmission).map
        StateFeedItem.signalingOf = [sNew.signaling] := by
  simp [signalingChangeEvents, h, onChangeEmission, StateFeedItem.signalingOf]

/-- Witness for C7 (amended) at the transition a teardown causes. -/
theorem onChange_emits_connection_on_state_change_witness :
    (signalingChangeEvents EngineState.init (teardown EngineState.init)).map
        onChangeEmission = [.connection (teardown EngineState.init)] :=
  (onChange_emits_connection_on_state_change EngineState.init
    (teardown EngineState.init) (by decide)).1

/-- Helper: building a candidate event and projecting the candidate back is
the identity, mapped over a list. -/
theorem map_candidate_comp_mk (l : List Candidate) :
    List.map (CandidateEvent.candidate ∘ CandidateEvent.mk) l = l := by
  induction l with
  | nil => rfl
  | cons c l ih =>
    show c :: List.map (CandidateEvent.candidate ∘ CandidateEvent.mk) l = c :: l
    rw [ih]

/-- Claim C8: the candidate feed emits each locally gathered candidate as it
becomes available — one emission per gathered candidate, in order — and
never delivers an explicit completion signal; since a closed engine raises
no candidate events, emission simply ends once gathering completes or the
connection closes. -/
theorem onCandidate_passthrough_no_end_signal
    (evs : List CandidateEvent) (s : EngineState) (gathered : List Candidate) :
    (onCandidateFeed evs).emitted = evs.map CandidateEvent.candidate ∧
    (onCandidateFeed evs).completed = false ∧
    (s.closed = true → engineCandidateEvents s gathered = []) ∧
    (onCandidateFeed (engineCandidateEvents s gathered)).emitted =
      if s.closed then [] else gathered := by
  refine ⟨rfl, rfl, fun hcl => by simp [engineCandidateEvents, hcl], ?_⟩
  by_cases hcl : s.closed
  · simp [onCandidateFeed, engineCandidateEvents, hcl]
  · simp only [onCandidateFeed, engineCandidateEvents, if_neg hcl, List.map_map]
    exact map_candidate_comp_mk gathered

/-- Witness for C8: two concrete candidates pass through unchanged with no
completion, and a torn-down engine produces no candidate events. -/
theorem onCandidate_passthrough_no_end_signal_witness :
    (onCandidateFeed [⟨"cand1"⟩, ⟨"cand2"⟩]).emitted = ["cand1", "cand2"] ∧
    (onCandidateFeed [⟨"cand1"⟩, ⟨"cand2"⟩]).completed = false ∧
    engineCandidateEvents (teardown EngineState.init) ["cand1"] = [] :=
  ⟨(onCandidate_passthrough_no_end_signal [⟨"cand1"⟩, ⟨"cand2"⟩]
      (teardown EngineState.init) ["cand1"]).1,
   (onCandidate_passthrough_no_end_signal [⟨"cand1"⟩, ⟨"cand2"⟩]
      (teardown EngineState.init) ["cand1"]).2.1,
   (onCandidate_passthrough_no_end_signal [⟨"cand1"⟩, ⟨"cand2"⟩]
      (teardown EngineState.init) ["cand1"]).2.2.1 rfl⟩

/-- Counterexample to claim C9: on a fresh adapter, after `setRemote` with a
remote offer, calling `createAnswer()` with no argument rejects at
remote-description application (the required description argument is
absent), so no local description of type answer results and the signaling
state does not return to stable. -/
theorem createAnswer_no_argument_counterexample :
    (PeerAdapter.setRemote (some ⟨.offer, "v=0 ro"⟩) AdapterState.init).1
      = .ok () ∧
    isErr (PeerAdapter.createAnswer id none
      ((PeerAdapter.setRemote (some ⟨.offer, "v=0 ro"⟩)
        AdapterState.init).2)).1 = true ∧
    (PeerAdapter.createAnswer id none
      ((PeerAdapter.setRemote (some ⟨.offer, "v=0 ro"⟩)
        AdapterState.init).2)).2.1.connection.localDesc = none ∧
    (PeerAdapter.createAnswer id none
      ((PeerAdapter.setRemote (some ⟨.offer, "v=0 ro"⟩)
        AdapterState.init).2)).2.1.connection.signaling ≠ .stable :=
  ⟨rfl, rfl, rfl, by decide⟩

/-- Claim C9 (amended): for a sequence `setRemote(offer)` followed by
`createAnswer(offer)` with the remote offer supplied as its argument, the
resulting local description's type is `answer` and the signaling state
returns to `stable`; called with no argument instead, `createAnswer` fails
at remote-description application. -/
theorem setRemote_then_createAnswer_offer_yields_answer_stable
    (adjust : String → String) (d : Sdp) (a : AdapterState)
    (hc : a.connection.closed = false) (hs : a.connection.signaling = .stable)
    (hd : d.ty = .offer) :
    (PeerAdapter.setRemote (some d) a).1 = .ok () ∧
    ((PeerAdapter.createAnswer adjust (some d)
        ((PeerAdapter.setRemote (some d) a).2)).2.1.connection.localDesc.map
          Sdp.ty) = some .answer ∧
    (PeerAdapter.createAnswer adjust (some d)
        ((PeerAdapter.setRemote (some d) a).2)).2.1.connection.signaling
      = .stable ∧
    isErr (PeerAdapter.createAnswer adjust none
        ((PeerAdapter.setRemote (some d) a).2)).1 = true := by
  simp [PeerAdapter.setRemote, PeerAdapter.createAnswer,
        applyRemoteDescription, applyRemoteDescriptionOpt, engineCreateAnswer,
        applyLocalDescription, isErr, hc, hs, hd]

/-- Witness for C9 (amended) at a fresh adapter and a concrete remote offer. -/
theorem setRemote_then_createAnswer_offer_yields_answer_stable_witness :
    ((PeerAdapter.createAnswer id (some ⟨.offer, "v=0 ro2"⟩)
        ((PeerAdapter.setRemote (some ⟨.offer, "v=0 ro2"⟩)
          AdapterState.init).2)).2.1.connection.localDesc.map Sdp.ty)
      = some .answer ∧
    (PeerAdapter.createAnswer id (some ⟨.offer, "v=0 ro2"⟩)
        ((PeerAdapter.setRemote (some ⟨.offer, "v=0 ro2"⟩)
          AdapterState.init).2)).2.1.connection.signaling = .stable :=
  ⟨(setRemote_then_createAnswer_offer_yields_answer_stable id
      ⟨.offer, "v=0 ro2"⟩ AdapterState.init rfl rfl rfl).2.1,
   (setRemote_then_createAnswer_offer_yields_answer_stable id
      ⟨.offer, "v=0 ro2"⟩ AdapterState.init rfl rfl rfl).2.2.1⟩

/-- Claim C10: `createDataChannel` returns, synchronously, exactly the
engine's result — the produced handle on success, the engine's thrown
refusal propagated verbatim on failure — and changes nothing on the adapter
beyond the engine's own effect; the pending inbound stream is untouched in
every case. -/
theorem createDataChannel_passthrough (lbl : String) (a : AdapterState) :
    (PeerAdapter.createDataChannel lbl a).2.pendingInboundStream =
      a.pendingInboundStream ∧
    (∀ e, openDataChannel lbl a.connection = .error e →
      PeerAdapter.createDataChannel lbl a = (.error e, a)) ∧
    (∀ ch c1, openDataChannel lbl a.connection = .ok (ch, c1) →
      PeerAdapter.createDataChannel lbl a =
        (.ok ch, { connection := c1,
                   pendingInboundStream := a.pendingInboundStream })) := by
  refine ⟨?_, ?_, ?_⟩
  · rcases h : openDataChannel lbl a.connection with e | ⟨ch, c1⟩ <;>
      simp [PeerAdapter.createDataChannel, h]
  · intro e he
    simp [PeerAdapter.createDataChannel, he]
  · intro ch c1 hok
    simp [PeerAdapter.createDataChannel, hok]

/-- Witness for C10: a fresh adapter and a concrete label; the engine's
handle comes back verbatim and only the engine's own effect happens. -/
theorem createDataChannel_passthrough_witness :
    PeerAdapter.createDataChannel "chat" AdapterState.init =
      (.ok ⟨"chat"⟩,
       { connection := { EngineState.init with channels := ["chat"] },
         pendingInboundStream := none }) :=
  (createDataChannel_passthrough "chat" AdapterState.init).2.2 ⟨"chat"⟩
    { EngineState.init with channels := ["chat"] } rfl

end SpeekVideo
